import Mathlib

/-!
Verification of the RAG backend service (backend/app of the repository)
against its natural-language specification.

The development shallowly embeds the Python modules:
  backend/app/db.py            (persistence gateway over Postgres + pgvector)
  backend/app/main.py          (HTTP handlers)
  backend/app/embeddings.py    (embedding client)
  backend/app/pdf_processor.py (PDF text extraction)

Modelling conventions:
  Floats are modelled as rationals.  The database is modelled as an explicit
  Store value holding the three tables (documents, chunks, chat_history)
  as lists in physical row order, plus the serial-id counters and a clock
  for server-assigned timestamps.  External collaborators (the pgvector
  distance operator, the OpenAI embedding and chat APIs, the langchain text
  splitter, statement-level database failures) are passed in as explicit
  function arguments, so each theorem quantifies over their behaviour.
  The connection in db.init_db is opened with autocommit=True, hence every
  executed SQL statement commits on its own; this is modelled by applying
  each statement effect to the store immediately, with a failure oracle
  saying which statement raises.
-/

/-- A row of the documents table. -/
structure DocumentRow where
  id : Nat
  docName : String
deriving DecidableEq

/-- A row of the chunks table; the embedding column is a vector of floats,
modelled as rationals. -/
structure ChunkRow where
  id : Nat
  docId : Nat
  content : String
  embedding : List ℚ
deriving DecidableEq

/-- A row of the chat_history table.  createdAt is the server-assigned
creation timestamp. -/
structure ChatRow where
  id : Nat
  sessionId : String
  role : String
  message : String
  createdAt : Nat
deriving DecidableEq

/-- The whole database state: the three tables in physical row order,
the serial id counters, and the timestamp clock.

Modelled from the spec: schema.sql is not under src/, so the column
defaults it declares are taken from the spec, which states that ids are
generated integers and created_at is a server-assigned timestamp that is
monotonic per session; both are modelled as counters that strictly
increase on every insert. -/
structure Store where
  documents : List DocumentRow
  chunks : List ChunkRow
  chats : List ChatRow
  nextDocId : Nat
  nextChunkId : Nat
  nextChatId : Nat
  clock : Nat
deriving DecidableEq

/-- The store of a freshly created database: empty tables. -/
def emptyStore : Store :=
  { documents := [], chunks := [], chats := [], nextDocId := 1, nextChunkId := 1,
    nextChatId := 1, clock := 0 }

/-- A structured HTTP error, as raised by FastAPI HTTPException:
a status code and a human-readable detail string. -/
structure HttpError where
  status : Nat
  detail : String
deriving DecidableEq

/-- One row of a search_chunks result: SELECT id, doc_id, content and the
computed distance column. -/
structure SearchRow where
  id : Nat
  docId : Nat
  content : String
  distance : ℚ
deriving DecidableEq

/-- db.insert_document: INSERT INTO documents RETURNING id. -/
def insert_document (st : Store) (docName : String) : Nat × Store :=
  (st.nextDocId,
    { st with documents := st.documents ++ [⟨st.nextDocId, docName⟩],
              nextDocId := st.nextDocId + 1 })

/-- db.count_documents: SELECT COUNT(*) FROM documents. -/
def count_documents (st : Store) : Nat :=
  st.documents.length

/-- db.insert_chunk: INSERT INTO chunks (doc_id, content, embedding)
RETURNING id. -/
def insert_chunk (st : Store) (docId : Nat) (content : String)
    (embedding : List ℚ) : Nat × Store :=
  (st.nextChunkId,
    { st with chunks := st.chunks ++ [⟨st.nextChunkId, docId, content, embedding⟩],
              nextChunkId := st.nextChunkId + 1 })

/-- Ordering of search result rows by the computed distance column,
as produced by the ORDER BY clause of db.search_chunks. -/
def rowLE (a b : SearchRow) : Prop :=
  a.distance ≤ b.distance

instance : DecidableRel rowLE :=
  fun a b => inferInstanceAs (Decidable (a.distance ≤ b.distance))

instance : IsTotal SearchRow rowLE :=
  ⟨fun a b => le_total a.distance b.distance⟩

instance : IsTrans SearchRow rowLE :=
  ⟨fun _ _ _ hab hbc => le_trans hab hbc⟩

/-- db.search_chunks: SELECT id, doc_id, content, (embedding <=> q) AS
distance FROM chunks ORDER BY embedding <=> q LIMIT top_k.

The pgvector cosine-distance operator <=> is external library code and is
passed in as the argument dist; the same dist is used both for the
returned distance column and for the ordering, exactly as the SQL uses
the same expression twice.  ORDER BY is modelled by a sort on that
column.  top_k is a Python int and is passed verbatim to LIMIT; Postgres
raises an error when LIMIT is negative, and LIMIT k returns the first k
rows otherwise.  No clamping of top_k happens anywhere in this
function. -/
def search_chunks (dist : List ℚ → List ℚ → ℚ) (st : Store) (q : List ℚ)
    (topK : ℤ) : Except String (List SearchRow) :=
  if topK < 0 then
    .error "LIMIT must not be negative"
  else
    .ok ((List.insertionSort rowLE
      (st.chunks.map (fun c => ⟨c.id, c.docId, c.content, dist c.embedding q⟩))).take
        topK.toNat)

/-- db.insert_chat: INSERT INTO chat_history (session_id, role, message)
RETURNING id.  The created_at column default is modelled by the store
clock (see Store). -/
def insert_chat (st : Store) (sessionId role message : String) : Nat × Store :=
  (st.nextChatId,
    { st with chats := st.chats ++ [⟨st.nextChatId, sessionId, role, message, st.clock⟩],
              nextChatId := st.nextChatId + 1,
              clock := st.clock + 1 })

/-- Ordering of chat rows by the created_at column, as in the ORDER BY
created_at ASC clause of db.get_chat_history. -/
def chatLE (a b : ChatRow) : Prop :=
  a.createdAt ≤ b.createdAt

instance : DecidableRel chatLE :=
  fun a b => inferInstanceAs (Decidable (a.createdAt ≤ b.createdAt))

instance : IsTotal ChatRow chatLE :=
  ⟨fun a b => Nat.le_total a.createdAt b.createdAt⟩

instance : IsTrans ChatRow chatLE :=
  ⟨fun _ _ _ hab hbc => Nat.le_trans hab hbc⟩

/-- One row of a get_chat_history result: SELECT role, message, created_at. -/
structure HistoryRow where
  role : String
  message : String
  createdAt : Nat
deriving DecidableEq

/-- db.get_chat_history: SELECT role, message, created_at FROM chat_history
WHERE session_id = s ORDER BY created_at ASC. -/
def get_chat_history (st : Store) (sessionId : String) : List HistoryRow :=
  (List.insertionSort chatLE
      (st.chats.filter (fun r => r.sessionId == sessionId))).map
    (fun r => ⟨r.role, r.message, r.createdAt⟩)

/-- main.reset_database: executes DELETE FROM chunks; DELETE FROM
documents; DELETE FROM chat_history; in that order on the autocommit
connection, so each delete commits as soon as it executes.  The failures
oracle says whether statement n (0, 1 or 2) raises; on the first raising
statement the handler stops and returns a 500 error, and the deletes
already executed stay committed. -/
def reset_database (failures : Nat → Bool) (st : Store) :
    Store × Except HttpError String :=
  if failures 0 then
    (st, .error ⟨500, "Database reset error"⟩)
  else
    let st1 := { st with chunks := [] }
    if failures 1 then
      (st1, .error ⟨500, "Database reset error"⟩)
    else
      let st2 := { st1 with documents := [] }
      if failures 2 then
        (st2, .error ⟨500, "Database reset error"⟩)
      else
        ({ st2 with chats := [] }, .ok "Database reset successfully")

/-- The effects of the three delete statements of reset_database, in the
order the handler issues them: chunks, then documents, then chat
history. -/
def deleteEffects : List (Store → Store) :=
  [fun st => { st with chunks := [] },
   fun st => { st with documents := [] },
   fun st => { st with chats := [] }]

/-- Applying the first k delete statements to the store. -/
def applyDeletes (k : Nat) (st : Store) : Store :=
  (deleteEffects.take k).foldl (fun s f => f s) st

/-- The number of delete statements that execute successfully before the
first failing one (3 when none fails). -/
def numExecuted (failures : Nat → Bool) : Nat :=
  if failures 0 then 0 else if failures 1 then 1 else if failures 2 then 2 else 3

/-- Python str.lower, modelled character by character (the roles and
file names involved are ASCII, where the two functions agree). -/
def pyLower (s : String) : String :=
  ⟨s.data.map Char.toLower⟩

/-- Python str.endswith, modelled on the character lists. -/
def pyEndsWith (s t : String) : Bool :=
  t.data.isSuffixOf s.data

/-- Truthiness of Python page_text.strip(): the string holds at least
one non-whitespace character. -/
def hasText (s : String) : Bool :=
  s.data.any (fun c => !c.isWhitespace)

/-- One element of the data array of an OpenAI embeddings API response. -/
structure EmbeddingObject where
  embedding : List ℚ
deriving DecidableEq

/-- The body of an OpenAI embeddings API response, as consumed by
embeddings.embed_text. -/
structure EmbeddingsResponse where
  data : List EmbeddingObject
deriving DecidableEq

/-- embeddings.embed_text: calls client.embeddings.create (the remote
call is the create argument) and returns resp.data[0].embedding.  An
exception from the remote call propagates; indexing an empty data array
raises an IndexError.  No check of any kind is made on the returned
vector. -/
def embed_text (create : String → Except String EmbeddingsResponse)
    (text : String) : Except String (List ℚ) :=
  match create text with
  | .error e => .error e
  | .ok resp =>
    match resp.data with
    | [] => .error "IndexError: list index out of range"
    | d :: _ => .ok d.embedding

/-- The fixed answer returned by the /ask handler when retrieval finds
no chunks. -/
def unknownAnswer : String :=
  "I don\x27t know based on the current knowledge base."

/-- The placeholder answer used by /ask when the chat model returns no
usable text. -/
def noContentAnswer : String :=
  "⚠️ No content returned from model."

/-- The fixed system message of the /ask prompt. -/
def systemMsg : String :=
  "You are a helpful assistant. Use ONLY the provided context to answer. " ++
    "If the answer is not in the context, say you don\x27t know."

/-- Result of the /ask handler.  llmCalled records whether the handler
reached the chat-completion call (step 4 of the handler); it is false
exactly on the early-return path. -/
structure AskOut where
  answer : String
  sources : List SearchRow
  llmCalled : Bool
deriving DecidableEq

/-- main.ask (the /ask handler): embeds the question, retrieves the
nearest chunks, short-circuits when none are found, otherwise builds the
context block and calls the chat-completion API (the llm argument, which
receives the system and user messages and returns either a failure, or
no usable content, or the answer text).  An unhandled exception from the
embedding or retrieval step becomes a 500 response via FastAPI. -/
def ask (embed : String → Except String (List ℚ))
    (dist : List ℚ → List ℚ → ℚ) (st : Store)
    (llm : String → String → Except String (Option String))
    (question : String) (topK : ℤ) : Except HttpError AskOut :=
  match embed question with
  | .error e => .error ⟨500, "Internal Server Error: " ++ e⟩
  | .ok qvec =>
    match search_chunks dist st qvec topK with
    | .error e => .error ⟨500, "Internal Server Error: " ++ e⟩
    | .ok hits =>
      if hits.isEmpty then
        .ok ⟨unknownAnswer, [], false⟩
      else
        let context := String.intercalate "\n\n" (hits.map (fun h => "- " ++ h.content))
        let userMsg := "Context:\n" ++ context ++ "\n\nQuestion: " ++ question ++ "\nAnswer:"
        match llm systemMsg userMsg with
        | .error e => .error ⟨500, "OpenAI error: " ++ e⟩
        | .ok none => .ok ⟨noContentAnswer, hits, true⟩
        | .ok (some a) => .ok ⟨if a = "" then noContentAnswer else a, hits, true⟩

/-- main.add_chat (the /chat handler): lower-cases the role, rejects a
role other than user or assistant with a 400 before touching the
database, and otherwise inserts the message with the lower-cased
role. -/
def add_chat (st : Store) (sessionId role message : String) :
    Store × Except HttpError Nat :=
  let r := pyLower role
  if r = "user" ∨ r = "assistant" then
    let (chatId, st1) := insert_chat st sessionId r message
    (st1, .ok chatId)
  else
    (st, .error ⟨400, "role must be \x27user\x27 or \x27assistant\x27"⟩)

/-- Validation of the top_k field of the SearchIn request model
(pydantic Field with ge=1, le=50): an out-of-range value makes request
validation fail, it is never clamped. -/
def searchInValid (topK : ℤ) : Bool :=
  decide (1 ≤ topK) && decide (topK ≤ 50)

/-- Modelled from the spec: the spec sentence for searchChunks says topK
is clamped to the range 1 to 50; this comparator definition follows the
words of the spec and exists only to be compared against search_chunks,
which is translated from the code. -/
def clampTopK (topK : ℤ) : ℤ :=
  max 1 (min topK 50)

/-- Whether a page of the PDF yields extractable text: its extraction
call succeeds and the text is non-empty after stripping whitespace
(the truthiness test page_text.strip() of the code). -/
def usablePage : Except String String → Bool
  | .error _ => false
  | .ok t => hasText t

/-- The per-page loop of pdf_processor.extract_text_from_pdf: pages are
numbered from 1; a page whose extraction raises is skipped (logged,
continue), a page whose text is empty after stripping is skipped, and
every other page contributes a formatted block. -/
def collectPages : Nat → List (Except String String) → List String
  | _, [] => []
  | n, p :: rest =>
    match p with
    | .error _ => collectPages (n + 1) rest
    | .ok t =>
      if hasText t then
        ("--- Page " ++ toString n ++ " ---\n" ++ t) :: collectPages (n + 1) rest
      else
        collectPages (n + 1) rest

/-- pdf_processor.extract_text_from_pdf: joins the per-page blocks; when
no page yields text it raises ValueError, which the enclosing handler of
the function wraps into the message below.  Errors are modelled as the
ValueError message string. -/
def extract_text_from_pdf (pages : List (Except String String)) :
    Except String String :=
  let tc := collectPages 1 pages
  if tc.isEmpty then
    .error "Failed to extract text from PDF: No text content found in PDF"
  else
    .ok (String.intercalate "\n\n" tc)

/-- The per-chunk loop of main.upload_pdf: for each chunk in order,
embed it, then insert it, collecting the returned chunk ids.  The embed
argument models the embedding API; the dbFail oracle says whether the
insert for the chunk at a given position raises (with which message).
The first exception aborts the loop; the local chunk_ids list of the
handler dies with the raised exception, so the error value carries only
the message of the failure. -/
def uploadChunksLoop (embed : String → Except String (List ℚ))
    (dbFail : Nat → Option String) (docId : Nat) :
    List String → Nat → List Nat → Store → Store × Except String (List Nat)
  | [], _, acc, st => (st, .ok acc)
  | c :: rest, i, acc, st =>
    match embed c with
    | .error e => (st, .error e)
    | .ok v =>
      match dbFail i with
      | some e => (st, .error e)
      | none =>
        let (chunkId, st1) := insert_chunk st docId c v
        uploadChunksLoop embed dbFail docId rest (i + 1) (acc ++ [chunkId]) st1

/-- Result of a successful /upload-pdf call. -/
structure UploadOut where
  docId : Nat
  filename : String
  chunksCreated : Nat
  textLength : Nat
  chunkIds : List Nat
deriving DecidableEq

/-- main.upload_pdf: validates the file extension, extracts the text
(pages is the parsed page list; a ValueError from extraction becomes a
400 client error), creates the document record, splits the text into
chunks (the split argument models the langchain splitter) and runs the
per-chunk embed-and-insert loop; any exception of the loop becomes a 500
server error whose detail is the exception message. -/
def upload_pdf (split : String → List String)
    (embed : String → Except String (List ℚ)) (dbFail : Nat → Option String)
    (filename : String) (pages : List (Except String String)) (st : Store) :
    Store × Except HttpError UploadOut :=
  if !(pyEndsWith (pyLower filename) ".pdf") then
    (st, .error ⟨400, "Only PDF files are supported"⟩)
  else
    match extract_text_from_pdf pages with
    | .error e => (st, .error ⟨400, e⟩)
    | .ok text =>
      let (docId, st1) := insert_document st filename
      match uploadChunksLoop embed dbFail docId (split text) 0 [] st1 with
      | (st2, .error e) => (st2, .error ⟨500, "PDF upload error: " ++ e⟩)
      | (st2, .ok ids) =>
        (st2, .ok ⟨docId, filename, ids.length, text.length, ids⟩)

/-- Inserting the chunks of a list in order via insert_chunk, used to
describe the store reached by a prefix of the upload loop. -/
def insertChunksAll (docId : Nat)
    (emb : String → List ℚ) : List String → Store → Store
  | [], st => st
  | c :: rest, st => insertChunksAll docId emb rest (insert_chunk st docId c (emb c)).2

/-- A chat message to insert: session, role, message. -/
structure ChatMsg where
  sessionId : String
  role : String
  message : String
deriving DecidableEq

/-- Inserting a list of chat messages in order via insert_chat. -/
def insertMany (msgs : List ChatMsg) (st : Store) : Store :=
  msgs.foldl (fun s m => (insert_chat s m.sessionId m.role m.message).2) st

/-- The chat rows created by inserting a list of messages starting from
the given id counter and clock. -/
def buildRows (chatId clk : Nat) : List ChatMsg → List ChatRow
  | [] => []
  | m :: ms => ⟨chatId, m.sessionId, m.role, m.message, clk⟩ :: buildRows (chatId + 1) (clk + 1) ms

/-- A concrete store with one document owning one chunk, used by
witnesses and counterexamples. -/
def oneChunkStore : Store :=
  { documents := [⟨1, "d"⟩], chunks := [⟨1, 1, "c", [1]⟩], chats := [],
    nextDocId := 2, nextChunkId := 2, nextChatId := 1, clock := 0 }

/-- A concrete store with one document owning two chunks whose
embeddings are at distances 64 and 1 from the query vector used by the
witness of the retrieval-ordering claim. -/
def twoChunkStore : Store :=
  { documents := [⟨1, "d"⟩], chunks := [⟨1, 1, "far", [9]⟩, ⟨2, 1, "near", [2]⟩],
    chats := [], nextDocId := 2, nextChunkId := 3, nextChatId := 1, clock := 0 }

/-- The squared-difference metric on the first coordinate, a concrete
stand-in for the external distance operator in witnesses. -/
def headDist (a b : List ℚ) : ℚ :=
  ((a.headD 0) - (b.headD 0)) * ((a.headD 0) - (b.headD 0))

/-- C1: when retrieval returns zero chunks, the /ask handler answers with
the fixed unknown-answer string and an empty source list, and the
chat-completion API is never consulted: the llmCalled flag is false and
the response does not depend on the chat-completion collaborator at
all. -/
theorem C1_ask_empty_short_circuit
    (embed : String → Except String (List ℚ)) (dist : List ℚ → List ℚ → ℚ)
    (st : Store) (llm llm2 : String → String → Except String (Option String))
    (question : String) (topK : ℤ) (qvec : List ℚ)
    (hEmbed : embed question = .ok qvec)
    (hSearch : search_chunks dist st qvec topK = .ok []) :
    ask embed dist st llm question topK = .ok ⟨unknownAnswer, [], false⟩ ∧
      ask embed dist st llm question topK = ask embed dist st llm2 question topK := by
  constructor <;> simp [ask, hEmbed, hSearch]

/-- Witness for C1 at a concrete empty store. -/
theorem C1_ask_empty_short_circuit_witness :
    ask (fun _ => .ok []) (fun _ _ => 0) emptyStore (fun _ _ => .ok (some "hi")) "q" 4 =
      .ok ⟨unknownAnswer, [], false⟩ :=
  (C1_ask_empty_short_circuit (fun _ => .ok []) (fun _ _ => 0) emptyStore
    (fun _ _ => .ok (some "hi")) (fun _ _ => .error "down") "q" 4 [] rfl rfl).1

/-- C2 counterexample: with one document owning one chunk in the store
and the second delete statement (DELETE FROM documents) failing, the
handler reports a 500 error but the store has changed: the chunks are
gone while the documents remain, because the connection is autocommit
and the first delete already committed.  This refutes the part of the
claim stating that the three deletes form a single atomic transaction
leaving the store unchanged on failure. -/
theorem C2_reset_not_atomic_counterexample :
    ((reset_database (fun n => n == 1)
        { documents := [⟨1, "d"⟩], chunks := [⟨1, 1, "c", [1]⟩], chats := [],
          nextDocId := 2, nextChunkId := 2, nextChatId := 1, clock := 0 }).2 =
      .error ⟨500, "Database reset error"⟩) ∧
    (reset_database (fun n => n == 1)
        { documents := [⟨1, "d"⟩], chunks := [⟨1, 1, "c", [1]⟩], chats := [],
          nextDocId := 2, nextChunkId := 2, nextChatId := 1, clock := 0 }).1 ≠
      { documents := [⟨1, "d"⟩], chunks := [⟨1, 1, "c", [1]⟩], chats := [],
        nextDocId := 2, nextChunkId := 2, nextChatId := 1, clock := 0 } := by
  refine ⟨rfl, fun h => ?_⟩
  have h2 := congrArg Store.chunks h
  simp [reset_database] at h2

/-- C2 amended: reset_database issues the three deletes in the order
chunks, documents, chat history on the autocommit connection, so the
store reached is exactly the prefix of delete effects up to the first
failing statement; the call succeeds exactly when all three execute; and
because the chunk delete always comes first, the store either is
untouched or has its chunks cleared, so no reachable state has the
documents deleted while the chunks remain. -/
theorem C2_reset_order_autocommit (failures : Nat → Bool) (st : Store) :
    (reset_database failures st).1 = applyDeletes (numExecuted failures) st ∧
      ((reset_database failures st).2 = .ok "Database reset successfully" ↔
        numExecuted failures = 3) ∧
      ((reset_database failures st).1 = st ∨ (reset_database failures st).1.chunks = []) := by
  cases h0 : failures 0 <;> cases h1 : failures 1 <;> cases h2 : failures 2 <;>
    simp [reset_database, applyDeletes, deleteEffects, numExecuted, h0, h1, h2]

/-- C3: after a reset_database call that reports success, the document
count is zero and search_chunks returns the empty list for every
distance function, query vector and non-negative topK. -/
theorem C3_reset_complete (failures : Nat → Bool) (st : Store)
    (dist : List ℚ → List ℚ → ℚ) (q : List ℚ) (topK : ℤ) (m : String)
    (hOk : (reset_database failures st).2 = .ok m)
    (hK : 0 ≤ topK) :
    count_documents (reset_database failures st).1 = 0 ∧
      search_chunks dist (reset_database failures st).1 q topK = .ok [] := by
  by_cases h0 : failures 0
  · simp [reset_database, h0] at hOk
  · by_cases h1 : failures 1
    · simp [reset_database, h0, h1] at hOk
    · by_cases h2 : failures 2
      · simp [reset_database, h0, h1, h2] at hOk
      · constructor <;>
          simp [reset_database, h0, h1, h2, count_documents, search_chunks,
            not_lt.mpr hK]

/-- Witness for C3 at a concrete store holding one document, one chunk
and one chat message. -/
theorem C3_reset_complete_witness :
    count_documents (reset_database (fun _ => false)
        { documents := [⟨1, "d"⟩], chunks := [⟨1, 1, "c", [1]⟩],
          chats := [⟨1, "s", "user", "hi", 0⟩], nextDocId := 2, nextChunkId := 2,
          nextChatId := 2, clock := 1 }).1 = 0 ∧
      search_chunks (fun _ _ => 0) (reset_database (fun _ => false)
        { documents := [⟨1, "d"⟩], chunks := [⟨1, 1, "c", [1]⟩],
          chats := [⟨1, "s", "user", "hi", 0⟩], nextDocId := 2, nextChunkId := 2,
          nextChatId := 2, clock := 1 }).1 [1] 5 = .ok [] :=
  C3_reset_complete (fun _ => false)
    { documents := [⟨1, "d"⟩], chunks := [⟨1, 1, "c", [1]⟩],
      chats := [⟨1, "s", "user", "hi", 0⟩], nextDocId := 2, nextChunkId := 2,
      nextChatId := 2, clock := 1 }
    (fun _ _ => 0) [1] 5 "Database reset successfully" rfl (by decide)

/-- C5 counterexample: when the remote embeddings call answers with a
three-dimensional vector, embed_text returns that vector without any
error, refuting the part of the claim stating that a result of
unexpected dimensionality makes the operation fail. -/
theorem C5_embed_wrong_dimension_counterexample :
    embed_text (fun _ => .ok ⟨[⟨[1, 2, 3]⟩]⟩) "x" = .ok [1, 2, 3] ∧
      ([(1 : ℚ), 2, 3].length ≠ 1536) := by
  exact ⟨rfl, by decide⟩

/-- C5 amended: embed_text propagates a failure of the remote call as an
explicit error, but performs no dimensionality check at all: a
successful remote response is returned verbatim, its first embedding
whatever its length, as the joint hypotheses here exhibit on a response
of non-1536 length. -/
theorem C5_embed_propagates_no_check
    (create1 create2 : String → Except String EmbeddingsResponse)
    (text e : String) (d : EmbeddingObject) (rest : List EmbeddingObject)
    (h1 : create1 text = .error e)
    (h2 : create2 text = .ok ⟨d :: rest⟩)
    (_h3 : d.embedding.length ≠ 1536) :
    embed_text create1 text = .error e ∧
      embed_text create2 text = .ok d.embedding := by
  unfold embed_text
  rw [h1, h2]
  exact ⟨rfl, rfl⟩

/-- Witness for C5 with a failing remote call and a remote call
returning a three-dimensional vector. -/
theorem C5_embed_propagates_no_check_witness :
    embed_text (fun _ => .error "timeout") "x" = .error "timeout" ∧
      embed_text (fun _ => .ok ⟨[⟨[1, 2, 3]⟩]⟩) "x" = .ok (⟨[1, 2, 3]⟩ : EmbeddingObject).embedding :=
  C5_embed_propagates_no_check (fun _ => .error "timeout")
    (fun _ => .ok ⟨[⟨[1, 2, 3]⟩]⟩) "x" "timeout" ⟨[1, 2, 3]⟩ [] rfl rfl (by decide)

/-- C10: the /chat handler lower-cases the role before validating and
storing: a role whose lower-casing is user or assistant is accepted and
stored lower-cased, and any other role is rejected with a 400 client
error while the store is left untouched, so no database write
happens. -/
theorem C10_add_chat_role_handling (st : Store) (sessionId message : String)
    (rGood rBad : String)
    (hg : pyLower rGood = "user" ∨ pyLower rGood = "assistant")
    (hb : ¬(pyLower rBad = "user" ∨ pyLower rBad = "assistant")) :
    add_chat st sessionId rGood message =
      ({ st with
          chats := st.chats ++ [⟨st.nextChatId, sessionId, pyLower rGood, message, st.clock⟩],
          nextChatId := st.nextChatId + 1, clock := st.clock + 1 },
        .ok st.nextChatId) ∧
      add_chat st sessionId rBad message =
        (st, .error ⟨400, "role must be \x27user\x27 or \x27assistant\x27"⟩) := by
  constructor
  · simp only [add_chat, insert_chat, if_pos hg]
  · simp only [add_chat, insert_chat, if_neg hb]

/-- Rows of a search_chunks result all come from the stored chunks with
the distance column computed by the same metric used for ordering; this
helper describes the full result list before LIMIT. -/
theorem search_rows_spec (dist : List ℚ → List ℚ → ℚ) (st : Store) (q : List ℚ)
    (topK : ℤ) (hK : 0 ≤ topK) :
    search_chunks dist st q topK =
      .ok ((List.insertionSort rowLE
        (st.chunks.map (fun c => ⟨c.id, c.docId, c.content, dist c.embedding q⟩))).take
          topK.toNat) := by
  unfold search_chunks
  rw [if_neg (not_lt.mpr hK)]

/-- C7: for every stored chunk set, query vector and non-negative topK,
search_chunks succeeds with rows sorted in non-decreasing order of the
distance column, the row count is the minimum of topK and the number of
stored chunks, and every returned row is a stored chunk whose distance
column is computed by the very metric that ordered the rows (one fixed
metric applied consistently). -/
theorem C7_search_sorted_and_counted (dist : List ℚ → List ℚ → ℚ) (st : Store)
    (q : List ℚ) (topK : ℤ) (hK : 0 ≤ topK) :
    ∃ rows, search_chunks dist st q topK = .ok rows ∧
      rows.Pairwise (fun a b => a.distance ≤ b.distance) ∧
      rows.length = min topK.toNat st.chunks.length ∧
      ∀ r ∈ rows, ∃ c ∈ st.chunks,
        r = ⟨c.id, c.docId, c.content, dist c.embedding q⟩ := by
  refine ⟨_, search_rows_spec dist st q topK hK, ?_, ?_, ?_⟩
  · exact List.Pairwise.sublist (List.take_sublist _ _)
      (List.sorted_insertionSort rowLE _)
  · rw [List.length_take, List.length_insertionSort, List.length_map]
  · intro r hr
    have hmem : r ∈ st.chunks.map
        (fun c => (⟨c.id, c.docId, c.content, dist c.embedding q⟩ : SearchRow)) :=
      (List.mem_insertionSort rowLE).mp (List.mem_of_mem_take hr)
    obtain ⟨c, hc, hrc⟩ := List.mem_map.mp hmem
    exact ⟨c, hc, hrc.symm⟩

/-- Witness for C7 on a store of two chunks with a concrete metric and
topK 5. -/
theorem C7_search_sorted_and_counted_witness :
    ∃ rows, search_chunks headDist twoChunkStore [1] 5 = .ok rows ∧
      rows.Pairwise (fun a b => a.distance ≤ b.distance) ∧
      rows.length = min (5 : ℤ).toNat twoChunkStore.chunks.length ∧
      ∀ r ∈ rows, ∃ c ∈ twoChunkStore.chunks,
        r = ⟨c.id, c.docId, c.content, headDist c.embedding [1]⟩ :=
  C7_search_sorted_and_counted headDist twoChunkStore [1] 5 (by decide)

/-- C6 counterexample: on a store holding one chunk, calling
search_chunks with topK 0 yields zero rows, while calling it with the
clamp of 0 into the range 1 to 50 yields one row; the two results
differ, so the gateway did not clamp the topK it used.  This refutes the
claim that the topK actually used for the query is clamped into the
range 1 to 50. -/
theorem C6_no_clamp_counterexample :
    search_chunks (fun _ _ => 0) oneChunkStore [1] 0 = .ok [] ∧
      search_chunks (fun _ _ => 0) oneChunkStore [1] (clampTopK 0) = .ok [⟨1, 1, "c", 0⟩] ∧
      (Except.ok [(⟨1, 1, "c", 0⟩ : SearchRow)] ≠ (.ok ([] : List SearchRow) : Except String (List SearchRow))) := by
  refine ⟨rfl, rfl, fun h => ?_⟩
  injection h with h
  exact List.cons_ne_nil _ _ h

/-- C6 amended: search_chunks applies no clamping at all: every
non-negative topK is used verbatim as the row limit, so the row count is
the minimum of topK itself and the stored chunk count even for topK
values outside the range 1 to 50; range enforcement lives solely in the
request validation of the API layer (SearchIn), which rejects rather
than clamps a top_k outside the range 1 to 50. -/
theorem C6_unclamped_limit_and_validation (dist : List ℚ → List ℚ → ℚ)
    (st : Store) (q : List ℚ) (topK : ℤ) (hK : 0 ≤ topK) :
    (∃ rows, search_chunks dist st q topK = .ok rows ∧
        rows.length = min topK.toNat st.chunks.length) ∧
      (searchInValid topK = true ↔ 1 ≤ topK ∧ topK ≤ 50) := by
  constructor
  · refine ⟨_, search_rows_spec dist st q topK hK, ?_⟩
    rw [List.length_take, List.length_insertionSort, List.length_map]
  · simp [searchInValid]

/-- Witness for C6 with topK 100, a value above the validation range,
used verbatim by the gateway on a one-chunk store. -/
theorem C6_unclamped_limit_and_validation_witness :
    (∃ rows, search_chunks (fun _ _ => 0) oneChunkStore [1] 100 = .ok rows ∧
        rows.length = min (100 : ℤ).toNat oneChunkStore.chunks.length) ∧
      (searchInValid 100 = true ↔ 1 ≤ (100 : ℤ) ∧ (100 : ℤ) ≤ 50) :=
  C6_unclamped_limit_and_validation (fun _ _ => 0) oneChunkStore [1] 100 (by decide)

/-- C4 counterexample: three upload runs against the same store, one
whose chunk list is good then bad, one whose chunk list is just bad
(embedding the chunk bad raises with message boom), and one where the
embedding succeeds but the very first insert raises with message boom.
All three surface the very same 500 error to the caller, yet the first
run created one chunk and the other two none: the surfaced error
therefore cannot carry the progress made so far, and in particular does
not name the chunk ids created before the failure.  This refutes the
part of the claim stating that the error surfaced to the caller carries
the ordered sequence of chunk ids created before the failure, for both
the embedding-failure and the insert-failure case. -/
theorem C4_error_lacks_progress_counterexample :
    ((upload_pdf (fun _ => ["good", "bad"])
        (fun s => if s = "bad" then .error "boom" else .ok [1])
        (fun _ => none) "a.pdf" [.ok "t"] emptyStore).2 =
      (upload_pdf (fun _ => ["bad"])
        (fun s => if s = "bad" then .error "boom" else .ok [1])
        (fun _ => none) "a.pdf" [.ok "t"] emptyStore).2) ∧
      ((upload_pdf (fun _ => ["solo"]) (fun _ => .ok [1])
        (fun i => if i = 0 then some "boom" else none)
        "a.pdf" [.ok "t"] emptyStore).2 =
      (upload_pdf (fun _ => ["bad"])
        (fun s => if s = "bad" then .error "boom" else .ok [1])
        (fun _ => none) "a.pdf" [.ok "t"] emptyStore).2) ∧
      ((upload_pdf (fun _ => ["good", "bad"])
        (fun s => if s = "bad" then .error "boom" else .ok [1])
        (fun _ => none) "a.pdf" [.ok "t"] emptyStore).1.chunks.length = 1) ∧
      ((upload_pdf (fun _ => ["bad"])
        (fun s => if s = "bad" then .error "boom" else .ok [1])
        (fun _ => none) "a.pdf" [.ok "t"] emptyStore).1.chunks.length = 0) ∧
      ((upload_pdf (fun _ => ["solo"]) (fun _ => .ok [1])
        (fun i => if i = 0 then some "boom" else none)
        "a.pdf" [.ok "t"] emptyStore).1.chunks.length = 0) := by
  refine ⟨rfl, rfl, rfl, rfl, rfl⟩

/-- C4 amended: the upload loop processes chunks strictly in order,
embedding then inserting each one; on the first chunk that fails,
whether its embedding call raises or its insert raises, the loop aborts,
leaving exactly the chunks before the failure inserted in the store, and
the error it surfaces is only the failure message: the ids of the
already-created chunks appear in the store but not in the error.  The
handler wraps this message into a 500 response whose detail is the
message, again without the chunk ids. -/
theorem C4_upload_aborts_on_first_failure (embed : String → Except String (List ℚ))
    (dbFail : Nat → Option String) (embFn : String → List ℚ) (docId : Nat)
    (pre rest : List String) (bad e : String) (st : Store)
    (hpre : ∀ p ∈ pre, embed p = .ok (embFn p))
    (hdb : ∀ j, j < pre.length → dbFail j = none)
    (hfail : embed bad = .error e ∨
      (∃ v, embed bad = .ok v ∧ dbFail pre.length = some e)) :
    uploadChunksLoop embed dbFail docId (pre ++ bad :: rest) 0 [] st =
      (insertChunksAll docId embFn pre st, .error e) := by
  suffices h : ∀ (pre2 : List String) (i : Nat) (acc : List Nat) (st2 : Store),
      i + pre2.length = pre.length →
      (∀ p ∈ pre2, embed p = .ok (embFn p)) →
      (∀ j, j < pre2.length → dbFail (i + j) = none) →
      uploadChunksLoop embed dbFail docId (pre2 ++ bad :: rest) i acc st2 =
        (insertChunksAll docId embFn pre2 st2, .error e) by
    refine h pre 0 [] st (by simp) hpre ?_
    intro j hj
    simpa using hdb j hj
  intro pre2
  induction pre2 with
  | nil =>
    intro i acc st2 hlen _ _
    have hi : i = pre.length := by simpa using hlen
    subst hi
    rcases hfail with hb | ⟨v, hv, hsome⟩
    · simp [uploadChunksLoop, insertChunksAll, hb]
    · simp [uploadChunksLoop, insertChunksAll, hv, hsome]
  | cons p ps ih =>
    intro i acc st2 hlen hp hdb2
    have hphead : embed p = .ok (embFn p) := hp p (List.mem_cons_self p ps)
    have hd0 : dbFail i = none := by simpa using hdb2 0 (Nat.succ_pos ps.length)
    simp only [List.cons_append, uploadChunksLoop, hphead, hd0, insertChunksAll]
    refine ih (i + 1) (acc ++ [(insert_chunk st2 docId p (embFn p)).1]) _
      (by simp at hlen ⊢; omega)
      (fun x hx => hp x (List.mem_cons_of_mem p hx)) ?_
    intro j hj
    have h2 := hdb2 (j + 1) (by simpa using Nat.succ_lt_succ hj)
    rw [show i + 1 + j = i + (j + 1) by omega]
    exact h2

/-- Witness for C4: two concrete runs from the empty store, one where
the second chunk fails to embed, and one where the second chunk embeds
but its insert fails; both abort keeping exactly the first chunk
inserted and surface only the failure message. -/
theorem C4_upload_aborts_on_first_failure_witness :
    (uploadChunksLoop (fun s => if s = "bad" then .error "boom" else .ok [1])
        (fun _ => none) 1 (["good"] ++ "bad" :: []) 0 [] emptyStore =
      (insertChunksAll 1 (fun _ => [1]) ["good"] emptyStore, .error "boom")) ∧
      (uploadChunksLoop (fun _ => .ok [1])
        (fun i => if i = 1 then some "disk full" else none) 1
        (["g1"] ++ "b" :: ["c"]) 0 [] emptyStore =
      (insertChunksAll 1 (fun _ => [1]) ["g1"] emptyStore, .error "disk full")) :=
  ⟨C4_upload_aborts_on_first_failure
      (fun s => if s = "bad" then .error "boom" else .ok [1]) (fun _ => none)
      (fun _ => [1]) 1 ["good"] [] "bad" "boom" emptyStore
      (by intro p hp; simp at hp; subst hp; rfl)
      (fun _ _ => rfl) (Or.inl rfl),
   C4_upload_aborts_on_first_failure (fun _ => .ok [1])
      (fun i => if i = 1 then some "disk full" else none)
      (fun _ => [1]) 1 ["g1"] ["c"] "b" "disk full" emptyStore
      (fun _ _ => rfl)
      (by intro j hj; simp at hj; subst hj; rfl)
      (Or.inr ⟨[1], rfl, rfl⟩)⟩

/-- The page loop of the extractor collects nothing exactly when no page
yields extractable text, whatever the starting page number. -/
theorem collectPages_eq_nil (pages : List (Except String String)) :
    ∀ n, (collectPages n pages = [] ↔ ∀ p ∈ pages, usablePage p = false) := by
  induction pages with
  | nil => intro n; simp [collectPages]
  | cons p rest ih =>
    intro n
    cases p with
    | error e => simp [collectPages, usablePage, ih]
    | ok t =>
      by_cases h : hasText t
      · simp [collectPages, h, usablePage]
      · simp [collectPages, h, usablePage, ih]

/-- C8: pages yielding no extractable text (blank text or a page-level
extraction failure) are skipped without failing the extraction: whenever
at least one page yields text the extraction succeeds; and when no page
yields text the extraction fails with the ValueError message, which the
upload handler reports as a 400 client-input error, distinct from the
500 used for server errors. -/
theorem C8_extraction_skips_and_rejects
    (split : String → List String) (embed : String → Except String (List ℚ))
    (dbFail : Nat → Option String) (st : Store) (fname : String)
    (pagesGood pagesBad : List (Except String String))
    (h1 : ∃ p ∈ pagesGood, usablePage p = true)
    (h2 : ∀ p ∈ pagesBad, usablePage p = false)
    (h3 : pyEndsWith (pyLower fname) ".pdf" = true) :
    (∃ t, extract_text_from_pdf pagesGood = .ok t) ∧
      extract_text_from_pdf pagesBad =
        .error "Failed to extract text from PDF: No text content found in PDF" ∧
      (upload_pdf split embed dbFail fname pagesBad st).2 =
        .error ⟨400, "Failed to extract text from PDF: No text content found in PDF"⟩ := by
  have hGood : ¬ collectPages 1 pagesGood = [] := by
    rw [collectPages_eq_nil pagesGood 1]
    obtain ⟨p, hp, hu⟩ := h1
    intro hall
    rw [hall p hp] at hu
    cases hu
  have hBad : collectPages 1 pagesBad = [] :=
    (collectPages_eq_nil pagesBad 1).mpr h2
  have hBadErr : extract_text_from_pdf pagesBad =
      .error "Failed to extract text from PDF: No text content found in PDF" := by
    simp [extract_text_from_pdf, hBad]
  refine ⟨⟨String.intercalate "\n\n" (collectPages 1 pagesGood), ?_⟩, hBadErr, ?_⟩
  · simp [extract_text_from_pdf, List.isEmpty_iff, hGood]
  · simp [upload_pdf, h3, hBadErr]

/-- Witness for C8: a readable page among a failing page and a blank
page, against a page list with no extractable text at all. -/
theorem C8_extraction_skips_and_rejects_witness :
    (∃ t, extract_text_from_pdf [.error "x", .ok " ", .ok "hello"] = .ok t) ∧
      extract_text_from_pdf [.error "x", .ok " "] =
        .error "Failed to extract text from PDF: No text content found in PDF" ∧
      (upload_pdf (fun t => [t]) (fun _ => .ok []) (fun _ => none) "doc.pdf"
          [.error "x", .ok " "] emptyStore).2 =
        .error ⟨400, "Failed to extract text from PDF: No text content found in PDF"⟩ :=
  C8_extraction_skips_and_rejects (fun t => [t]) (fun _ => .ok []) (fun _ => none)
    emptyStore "doc.pdf" [.error "x", .ok " ", .ok "hello"] [.error "x", .ok " "]
    (by decide) (by decide) (by decide)

/-- The chat table reached by a sequence of inserts is the old table
followed by the rows built from the messages at the current id counter
and clock. -/
theorem insertMany_chats (msgs : List ChatMsg) :
    ∀ st : Store, (insertMany msgs st).chats =
      st.chats ++ buildRows st.nextChatId st.clock msgs := by
  induction msgs with
  | nil => intro st; simp [insertMany, buildRows]
  | cons m ms ih =>
    intro st
    show (insertMany ms _).chats = _
    rw [ih]
    simp [insert_chat, buildRows]

/-- Rows built from a message list carry timestamps at or above the
starting clock and strictly increasing along the list. -/
theorem buildRows_createdAt (msgs : List ChatMsg) :
    ∀ chatId clk, (∀ r ∈ buildRows chatId clk msgs, clk ≤ r.createdAt) ∧
      (buildRows chatId clk msgs).Pairwise (fun a b => a.createdAt < b.createdAt) := by
  induction msgs with
  | nil => intro chatId clk; simp [buildRows]
  | cons m ms ih =>
    intro chatId clk
    have ihtail := ih (chatId + 1) (clk + 1)
    constructor
    · intro r hr
      rw [buildRows] at hr
      rcases List.mem_cons.mp hr with h | h
      · rw [h]
      · exact Nat.le_of_succ_le (ihtail.1 r h)
    · rw [buildRows]
      exact List.Pairwise.cons
        (fun r hr => Nat.lt_of_succ_le (ihtail.1 r hr)) ihtail.2

/-- Filtering the built rows by session and projecting to role and
message gives exactly the filtered projection of the inserted
messages, in order. -/
theorem buildRows_filter_project (sid : String) (msgs : List ChatMsg) :
    ∀ chatId clk,
      ((buildRows chatId clk msgs).filter (fun r => r.sessionId == sid)).map
          (fun r => (r.role, r.message)) =
        (msgs.filter (fun m => m.sessionId == sid)).map
          (fun m => (m.role, m.message)) := by
  induction msgs with
  | nil => intro chatId clk; simp [buildRows]
  | cons m ms ih =>
    intro chatId clk
    rw [buildRows, List.filter_cons, List.filter_cons]
    cases h : (m.sessionId == sid) <;> simp [h, ih (chatId + 1) (clk + 1)]

/-- C9: inserting any list of chat messages into a fresh store and then
reading the history of a session returns exactly the messages of that
session, projected to role and message, in their insertion order, and
the returned rows are in ascending creation-time order. -/
theorem C9_chat_history_insertion_order (msgs : List ChatMsg) (sid : String) :
    (get_chat_history (insertMany msgs emptyStore) sid).map
        (fun h => (h.role, h.message)) =
      (msgs.filter (fun m => m.sessionId == sid)).map
        (fun m => (m.role, m.message)) ∧
      (get_chat_history (insertMany msgs emptyStore) sid).Pairwise
        (fun a b => a.createdAt ≤ b.createdAt) := by
  have hchats : (insertMany msgs emptyStore).chats = buildRows 1 0 msgs := by
    rw [insertMany_chats msgs emptyStore]
    rfl
  have hsorted : ((insertMany msgs emptyStore).chats.filter
      (fun r => r.sessionId == sid)).Pairwise (fun a b => a.createdAt < b.createdAt) := by
    rw [hchats]
    exact List.Pairwise.filter _ (buildRows_createdAt msgs 1 0).2
  have hsortedLE : ((insertMany msgs emptyStore).chats.filter
      (fun r => r.sessionId == sid)).Sorted chatLE :=
    hsorted.imp (fun h => le_of_lt h)
  have hid : List.insertionSort chatLE ((insertMany msgs emptyStore).chats.filter
      (fun r => r.sessionId == sid)) =
      (insertMany msgs emptyStore).chats.filter (fun r => r.sessionId == sid) :=
    hsortedLE.insertionSort_eq
  constructor
  · rw [get_chat_history, hid, List.map_map, hchats]
    exact buildRows_filter_project sid msgs 1 0
  · rw [get_chat_history, hid]
    rw [List.pairwise_map]
    exact hsorted.imp (fun h => le_of_lt h)

/-- Witness for C10 with the mixed-case role User and the invalid role
system on the empty store. -/
theorem C10_add_chat_role_handling_witness :
    add_chat emptyStore "s" "User" "hi" =
      ({ emptyStore with
          chats := emptyStore.chats ++
            [⟨emptyStore.nextChatId, "s", pyLower "User", "hi", emptyStore.clock⟩],
          nextChatId := emptyStore.nextChatId + 1, clock := emptyStore.clock + 1 },
        .ok emptyStore.nextChatId) ∧
      add_chat emptyStore "s" "system" "hi" =
        (emptyStore, .error ⟨400, "role must be \x27user\x27 or \x27assistant\x27"⟩) :=
  C10_add_chat_role_handling emptyStore "s" "hi" "User" "system"
    (Or.inl (by decide)) (by decide)

